import Mathlib

/-!
Verification of the go-psi pressure-stall-information monitoring library.

The Go source is shallowly embedded:
* `Duration` is `Int`, counting nanoseconds exactly as Go's `time.Duration`.
* `Config`, `Config.Check`, `Config.Explain` and the duration formatter
  `Duration.String` are direct translations of the pure Go functions.
* `Monitor` is modelled as a fuel-bounded function over an abstract
  environment `Env` supplying the results of the `os.OpenFile` call, the
  control-line write, each `unix.Poll` call and each callback invocation.
  Besides its result (`none` when the fuel runs out, i.e. the Go loop is
  still running) it records the trace of external events, so that claims
  about the written payload, the number of callback dispatches and the
  number of `fd.Close` calls can be stated.
-/

namespace Psi

/-- Go `time.Duration`: a count of nanoseconds (int64 in Go). -/
abbrev Duration := Int

def nanosecond : Duration := 1

def microsecond : Duration := 1000 * nanosecond

def millisecond : Duration := 1000 * microsecond

def second : Duration := 1000 * millisecond

/-- Go `Duration.Microseconds`: `int64(d) / 1e3` (truncated division). -/
def Duration.Microseconds (d : Duration) : Int := Int.tdiv d 1000

/-- The digit-by-digit fraction printer of Go `time.fmtFrac`: prepends up to
`prec` low decimal digits of `u`, omitting trailing zeros, preceded by a
decimal point when any digit was printed; returns the printed fraction and
the remaining value. -/
def fmtFracAux : Nat → Nat → String → Bool → String × Nat
  | 0, u, s, print => ((if print then "." ++ s else s), u)
  | n + 1, u, s, print =>
    let digit := u % 10
    let print := print || digit ≠ 0
    let s := if print then toString digit ++ s else s
    fmtFracAux n (u / 10) s print

/-- Go `time.Duration.String`: render a duration in natural units
("ns", "µs", "ms" below one second; "h"/"m"/"s" otherwise). -/
def Duration.String (d : Duration) : String :=
  let neg := d < 0
  let u : Nat := d.natAbs
  if u < second.toNat then
    if u = 0 then "0s"
    else
      let res :=
        if u < microsecond.toNat then (fmtFracAux 0 u "" false, "ns")
        else if u < millisecond.toNat then (fmtFracAux 3 u "" false, "µs")
        else (fmtFracAux 6 u "" false, "ms")
      (if neg then "-" else "") ++ toString res.1.2 ++ res.1.1 ++ res.2
  else
    let fr := fmtFracAux 9 u "" false
    let secs := toString (fr.2 % 60) ++ fr.1 ++ "s"
    let u2 := fr.2 / 60
    let rest :=
      if u2 > 0 then
        (if u2 / 60 > 0 then toString (u2 / 60) ++ "h" else "")
          ++ toString (u2 % 60) ++ "m"
      else ""
    (if neg then "-" else "") ++ rest ++ secs

/-- Go `Resource`: an open string tag ("cpu", "io", "memory"). -/
abbrev Resource := String

def ResourceCPU : Resource := "cpu"

def ResourceIO : Resource := "io"

def ResourceMemory : Resource := "memory"

/-- Go `StallType`: an open string tag ("some", "full"). -/
abbrev StallType := String

def StallTypeFull : StallType := "full"

def StallTypeSome : StallType := "some"

/-- Go `Config`: parameters used to monitor backpressure on a resource. -/
structure Config where
  Resource : Resource
  «Type» : StallType
  StallWindowDuration : Duration
  WindowDuration : Duration
deriving DecidableEq, Repr

/-- Go error values as observed by the monitor: the designated stop
sentinel `ErrStopMonitoring`, validation errors created by `fmt.Errorf`
(identified by their message), and opaque system errors from
open/write/poll or caller callbacks. -/
inductive Err where
  | stopMonitoring
  | checkErr (msg : String)
  | sysErr (n : Nat)
deriving DecidableEq, Repr

/-- Go `Config.Check`: validates the two duration bounds, returning the
first failing check's error (`none` models a nil error). -/
def Config.Check (c : Config) : Option Err :=
  if c.WindowDuration < millisecond * 500 then
    some (Err.checkErr "Minmum WindowDuration is 500ms")
  else if c.WindowDuration > second * 10 then
    some (Err.checkErr "Maximum WindowDuration is 10s")
  else if c.StallWindowDuration < millisecond * 50 then
    some (Err.checkErr "Minmum StallWindowDuration is 50ms")
  else if c.StallWindowDuration > second then
    some (Err.checkErr "Maximum StallWindowDuration is 1s")
  else none

/-- The `switch c.Type` in Go `Config.Explain` choosing the quantifier
phrase, with the `"UNKNOWN"` default. -/
def stallTypeName (t : StallType) : String :=
  if t = StallTypeSome then "at least one"
  else if t = StallTypeFull then "all of"
  else "UNKNOWN"

/-- Go `Config.Explain`: human readable description of the query. -/
def Config.Explain (c : Config) : String :=
  stallTypeName c.«Type»
    ++ " of the tasks in the queue are waiting for "
    ++ c.Resource
    ++ " for longer than "
    ++ Duration.String c.StallWindowDuration
    ++ " measured within a "
    ++ Duration.String c.WindowDuration
    ++ " time window\n"

/-- The control line `fmt.Fprintf(fd, "%s %d %d\x00", ...)` written by
`Monitor` to the pressure interface. -/
def controlLine (c : Config) : String :=
  c.«Type» ++ " " ++ toString (Duration.Microseconds c.StallWindowDuration)
    ++ " " ++ toString (Duration.Microseconds c.WindowDuration) ++ "\x00"

/-- Externally visible events of one `Monitor` call, in order: the config
check, the `os.OpenFile` call, the control-line write (with its payload),
each `unix.Poll`, each callback dispatch, and each `fd.Close`. -/
inductive Event where
  | checkCall (res : Option Err)
  | openCall (res : Option Err)
  | writeCall (payload : String) (res : Option Err)
  | pollCall (res : Option Err)
  | cbCall (res : Option Err)
  | closeCall
deriving DecidableEq, Repr

/-- The abstract environment of one `Monitor` call: results of the open,
the write, the i-th poll and the i-th callback invocation (`none` models a
nil error). -/
structure Env where
  openRes : Option Err
  writeRes : Option Err
  pollRes : Nat → Option Err
  cbRes : Nat → Option Err

/-- The `for` loop of Go `Monitor`, fuel-bounded: poll, then dispatch the
callback; a nil callback result continues, the stop sentinel breaks with a
nil overall result, any other error returns it. The result is `none` when
the fuel runs out (the Go loop would still be running); the trace lists
the poll and callback events. -/
def monitorLoop (p c : Nat → Option Err) : Nat → Nat → Option (Option Err) × List Event
  | 0, _ => (none, [])
  | fuel + 1, i =>
    match p i with
    | some e => (some (some e), [Event.pollCall (some e)])
    | none =>
      match c i with
      | some e =>
        if e = Err.stopMonitoring then
          (some none, [Event.pollCall none, Event.cbCall (some e)])
        else
          (some (some e), [Event.pollCall none, Event.cbCall (some e)])
      | none =>
        let r := monitorLoop p c fuel (i + 1)
        (r.1, Event.pollCall none :: Event.cbCall none :: r.2)

/-- Go `Monitor`: check the config, open the pressure interface, write the
control line, then run the wait loop; `defer fd.Close()` runs exactly when
the function returns after a successful open. The first component is the
returned error (`none` = nil, outer `none` = still looping when the fuel
ran out); the second is the event trace. -/
def Monitor (env : Env) (config : Config) (fuel : Nat) :
    Option (Option Err) × List Event :=
  match config.Check with
  | some e => (some (some e), [Event.checkCall (some e)])
  | none =>
    match env.openRes with
    | some e => (some (some e), [Event.checkCall none, Event.openCall (some e)])
    | none =>
      match env.writeRes with
      | some e =>
        (some (some e),
          [Event.checkCall none, Event.openCall none,
            Event.writeCall (controlLine config) (some e), Event.closeCall])
      | none =>
        let r := monitorLoop env.pollRes env.cbRes fuel 0
        match r.1 with
        | some res =>
          (some res,
            Event.checkCall none :: Event.openCall none
              :: Event.writeCall (controlLine config) none
              :: (r.2 ++ [Event.closeCall]))
        | none =>
          (none,
            Event.checkCall none :: Event.openCall none
              :: Event.writeCall (controlLine config) none :: r.2)

/-- The error carried by an event (`none` for a nil result or a close). -/
def eventErr : Event → Option Err
  | Event.checkCall e => e
  | Event.openCall e => e
  | Event.writeCall _ e => e
  | Event.pollCall e => e
  | Event.cbCall e => e
  | Event.closeCall => none

/-- First error value occurring in a trace. -/
def firstError : List Event → Option Err
  | [] => none
  | e :: rest =>
    match eventErr e with
    | some x => some x
    | none => firstError rest

/-- Number of callback dispatches in a trace. -/
def cbCalls : List Event → Nat
  | [] => 0
  | Event.cbCall _ :: rest => cbCalls rest + 1
  | _ :: rest => cbCalls rest

/-- Number of `fd.Close` calls in a trace. -/
def closeCalls : List Event → Nat
  | [] => 0
  | Event.closeCall :: rest => closeCalls rest + 1
  | _ :: rest => closeCalls rest

theorem firstError_append_close (l : List Event) :
    firstError (l ++ [Event.closeCall]) = firstError l := by
  induction l with
  | nil => simp [firstError, eventErr]
  | cons a t ih =>
    cases he : eventErr a <;> simp [firstError, he, ih]

theorem cbCalls_append (l1 l2 : List Event) :
    cbCalls (l1 ++ l2) = cbCalls l1 + cbCalls l2 := by
  induction l1 with
  | nil => simp [cbCalls]
  | cons a t ih =>
    cases a <;> simp [cbCalls, ih]
    omega

theorem closeCalls_append (l1 l2 : List Event) :
    closeCalls (l1 ++ l2) = closeCalls l1 + closeCalls l2 := by
  induction l1 with
  | nil => simp [closeCalls]
  | cons a t ih =>
    cases a <;> simp [closeCalls, ih]
    omega

theorem monitorLoop_stop_iff (p c : Nat → Option Err) :
    ∀ (fuel i : Nat),
      (monitorLoop p c fuel i).1 = some none ↔
        Event.cbCall (some Err.stopMonitoring) ∈ (monitorLoop p c fuel i).2 := by
  intro fuel
  induction fuel with
  | zero => intro i; simp [monitorLoop]
  | succ n ih =>
    intro i
    cases hp : p i with
    | some e => simp [monitorLoop, hp]
    | none =>
      cases hc : c i with
      | some e =>
        by_cases he : e = Err.stopMonitoring
        · subst he; simp [monitorLoop, hp, hc]
        · simp [monitorLoop, hp, hc, he]
          exact Ne.symm he
      | none =>
        simpa [monitorLoop, hp, hc] using ih (i + 1)

theorem monitorLoop_error_first (p c : Nat → Option Err) :
    ∀ (fuel i : Nat) (e : Err),
      (monitorLoop p c fuel i).1 = some (some e) →
        firstError (monitorLoop p c fuel i).2 = some e := by
  intro fuel
  induction fuel with
  | zero => intro i e h; simp [monitorLoop] at h
  | succ n ih =>
    intro i e h
    cases hp : p i with
    | some x =>
      simp [monitorLoop, hp] at h ⊢
      simp [firstError, eventErr, h]
    | none =>
      cases hc : c i with
      | some x =>
        by_cases hx : x = Err.stopMonitoring
        · subst hx; simp [monitorLoop, hp, hc] at h
        · simp [monitorLoop, hp, hc, hx] at h ⊢
          simp [firstError, eventErr, h]
      | none =>
        simp [monitorLoop, hp, hc] at h ⊢
        simpa [firstError, eventErr] using ih (i + 1) e h

theorem monitorLoop_no_write (p c : Nat → Option Err) :
    ∀ (fuel i : Nat) (s : String) (e : Option Err),
      Event.writeCall s e ∉ (monitorLoop p c fuel i).2 := by
  intro fuel
  induction fuel with
  | zero => intro i s e; simp [monitorLoop]
  | succ n ih =>
    intro i s e
    cases hp : p i with
    | some x => simp [monitorLoop, hp]
    | none =>
      cases hc : c i with
      | some x =>
        by_cases hx : x = Err.stopMonitoring <;> simp [monitorLoop, hp, hc, hx]
      | none => simp [monitorLoop, hp, hc]; exact ih (i + 1) s e

theorem monitorLoop_no_open (p c : Nat → Option Err) :
    ∀ (fuel i : Nat) (e : Option Err),
      Event.openCall e ∉ (monitorLoop p c fuel i).2 := by
  intro fuel
  induction fuel with
  | zero => intro i e; simp [monitorLoop]
  | succ n ih =>
    intro i e
    cases hp : p i with
    | some x => simp [monitorLoop, hp]
    | none =>
      cases hc : c i with
      | some x =>
        by_cases hx : x = Err.stopMonitoring <;> simp [monitorLoop, hp, hc, hx]
      | none => simp [monitorLoop, hp, hc]; exact ih (i + 1) e

theorem monitorLoop_no_close (p c : Nat → Option Err) :
    ∀ (fuel i : Nat), closeCalls (monitorLoop p c fuel i).2 = 0 := by
  intro fuel
  induction fuel with
  | zero => intro i; simp [monitorLoop, closeCalls]
  | succ n ih =>
    intro i
    cases hp : p i with
    | some x => simp [monitorLoop, hp, closeCalls]
    | none =>
      cases hc : c i with
      | some x =>
        by_cases hx : x = Err.stopMonitoring <;>
          simp [monitorLoop, hp, hc, hx, closeCalls]
      | none => simp [monitorLoop, hp, hc, closeCalls]; exact ih (i + 1)

theorem monitorLoop_cb_error (p c : Nat → Option Err) :
    ∀ (fuel i : Nat) (e : Err), e ≠ Err.stopMonitoring →
      Event.cbCall (some e) ∈ (monitorLoop p c fuel i).2 →
        (monitorLoop p c fuel i).1 = some (some e) := by
  intro fuel
  induction fuel with
  | zero => intro i e he h; simp [monitorLoop] at h
  | succ n ih =>
    intro i e he h
    cases hp : p i with
    | some x => simp [monitorLoop, hp] at h
    | none =>
      cases hc : c i with
      | some x =>
        by_cases hx : x = Err.stopMonitoring
        · subst hx
          simp [monitorLoop, hp, hc] at h
          exact absurd h he
        · simp [monitorLoop, hp, hc, hx] at h ⊢
          exact h.symm
      | none =>
        simp [monitorLoop, hp, hc] at h ⊢
        exact ih (i + 1) e he h

/-- C2: every Config whose WindowDuration lies in [500ms, 10s] and whose
StallWindowDuration lies in [50ms, 1s] passes Check (nil), whatever its
Resource and StallType; in particular no ordering between the two
durations is enforced: some Config with StallWindowDuration strictly
greater than WindowDuration passes Check. -/
theorem check_valid_range :
    (∀ c : Config,
      millisecond * 500 ≤ c.WindowDuration → c.WindowDuration ≤ second * 10 →
      millisecond * 50 ≤ c.StallWindowDuration → c.StallWindowDuration ≤ second →
      c.Check = none) ∧
    (∃ c : Config, c.WindowDuration < c.StallWindowDuration ∧ c.Check = none) := by
  constructor
  · intro c h1 h2 h3 h4
    simp only [Config.Check, Duration, nanosecond, microsecond, millisecond, second] at *
    split_ifs <;> first | rfl | omega
  · exact ⟨⟨ResourceCPU, StallTypeSome, second, millisecond * 500⟩, by decide, by decide⟩

/-- Witness for C2: the Config with WindowDuration 1s and
StallWindowDuration 100ms passes Check. -/
theorem check_valid_range_witness :
    (⟨ResourceCPU, StallTypeSome, millisecond * 100, second⟩ : Config).Check = none :=
  check_valid_range.1 ⟨ResourceCPU, StallTypeSome, millisecond * 100, second⟩
    (by decide) (by decide) (by decide) (by decide)

/-- C3: Check tests its four bounds in order, returning the first failing
check's error: a WindowDuration below 500ms (resp. above 10s) yields the
corresponding WindowDuration error regardless of StallWindowDuration, and
with a valid WindowDuration a StallWindowDuration below 50ms (resp. above
1s) yields the corresponding StallWindowDuration error. -/
theorem check_first_failing (c : Config) :
    (c.WindowDuration < millisecond * 500 →
      c.Check = some (Err.checkErr "Minmum WindowDuration is 500ms")) ∧
    (c.WindowDuration > second * 10 →
      c.Check = some (Err.checkErr "Maximum WindowDuration is 10s")) ∧
    (millisecond * 500 ≤ c.WindowDuration → c.WindowDuration ≤ second * 10 →
      c.StallWindowDuration < millisecond * 50 →
      c.Check = some (Err.checkErr "Minmum StallWindowDuration is 50ms")) ∧
    (millisecond * 500 ≤ c.WindowDuration → c.WindowDuration ≤ second * 10 →
      c.StallWindowDuration > second →
      c.Check = some (Err.checkErr "Maximum StallWindowDuration is 1s")) := by
  refine ⟨fun h1 => ?_, fun h1 => ?_, fun h1 h2 h3 => ?_, fun h1 h2 h3 => ?_⟩ <;>
    simp only [Config.Check, Duration, nanosecond, microsecond, millisecond, second] at * <;>
    split_ifs <;> first | rfl | omega

/-- Witness for C3: a Config with WindowDuration 0 fails Check with the
WindowDuration-minimum error. -/
theorem check_first_failing_witness :
    (⟨ResourceCPU, StallTypeSome, millisecond * 100, 0⟩ : Config).Check =
      some (Err.checkErr "Minmum WindowDuration is 500ms") :=
  (check_first_failing ⟨ResourceCPU, StallTypeSome, millisecond * 100, 0⟩).1 (by decide)

/-- C4: Explain maps StallType "some" to "at least one", "full" to
"all of", any other value to "UNKNOWN", and on the specific Configs of the
claim produces exactly the claimed strings: for "full" the substitution of
"all of" for "at least one" in the fixed sentence yields the doubled
"all of of the tasks..." prefix, as the code does. -/
theorem explain_phrases :
    stallTypeName StallTypeSome = "at least one" ∧
    stallTypeName StallTypeFull = "all of" ∧
    (∀ t : StallType, t ≠ StallTypeSome → t ≠ StallTypeFull →
      stallTypeName t = "UNKNOWN") ∧
    Config.Explain ⟨ResourceCPU, StallTypeSome, millisecond * 100, second⟩ =
      "at least one of the tasks in the queue are waiting for cpu for longer than 100ms measured within a 1s time window\n" ∧
    Config.Explain ⟨ResourceCPU, StallTypeFull, millisecond * 100, second⟩ =
      "all of of the tasks in the queue are waiting for cpu for longer than 100ms measured within a 1s time window\n" := by
  refine ⟨rfl, rfl, fun t h1 h2 => ?_, by decide, by decide⟩
  simp [stallTypeName, h1, h2]

/-- Witness for C4: an unsupported StallType tag maps to "UNKNOWN". -/
theorem explain_phrases_witness : stallTypeName "bogus" = "UNKNOWN" :=
  explain_phrases.2.2.1 "bogus" (by decide) (by decide)

/-- C9: when Check fails, Monitor returns that validation error at once:
the trace holds only the check event — no open, write, poll, callback or
close occurs. -/
theorem monitor_check_error_first (env : Env) (config : Config) (fuel : Nat)
    (e : Err) (h : config.Check = some e) :
    Monitor env config fuel = (some (some e), [Event.checkCall (some e)]) := by
  simp [Monitor, h]

/-- Witness for C9: with WindowDuration 0 Monitor returns the validation
error with a check-only trace. -/
theorem monitor_check_error_first_witness :
    Monitor ⟨none, none, fun _ => none, fun _ => none⟩
        ⟨ResourceCPU, StallTypeSome, millisecond * 100, 0⟩ 3 =
      (some (some (Err.checkErr "Minmum WindowDuration is 500ms")),
        [Event.checkCall (some (Err.checkErr "Minmum WindowDuration is 500ms"))]) :=
  monitor_check_error_first ⟨none, none, fun _ => none, fun _ => none⟩
    ⟨ResourceCPU, StallTypeSome, millisecond * 100, 0⟩ 3
    (Err.checkErr "Minmum WindowDuration is 500ms") (by decide)

/-- C10: Check reads only the two duration fields: Configs agreeing on
StallWindowDuration and WindowDuration get the same Check result, whatever
their Resource and Type tags. -/
theorem check_ignores_tags (c1 c2 : Config)
    (hs : c1.StallWindowDuration = c2.StallWindowDuration)
    (hw : c1.WindowDuration = c2.WindowDuration) :
    c1.Check = c2.Check := by
  unfold Config.Check
  rw [hs, hw]

/-- C1: Monitor returns nil exactly when the callback returned the stop
sentinel (the trace holds a callback dispatch returning
`ErrStopMonitoring`); in every other exit case the returned error is the
first validation, open, write, poll or callback error in the trace. -/
theorem monitor_success_iff_stop (env : Env) (config : Config) (fuel : Nat)
    (r : Option Err) (h : (Monitor env config fuel).1 = some r) :
    (r = none ↔
      Event.cbCall (some Err.stopMonitoring) ∈ (Monitor env config fuel).2) ∧
    (∀ e : Err, r = some e → firstError (Monitor env config fuel).2 = some e) := by
  cases hch : config.Check with
  | some e0 =>
    have hM : Monitor env config fuel =
        (some (some e0), [Event.checkCall (some e0)]) := by
      simp [Monitor, hch]
    rw [hM] at h
    replace h : some e0 = r := by simpa using h
    subst h
    rw [hM]
    simp [firstError, eventErr]
  | none =>
    cases hop : env.openRes with
    | some e0 =>
      have hM : Monitor env config fuel =
          (some (some e0), [Event.checkCall none, Event.openCall (some e0)]) := by
        simp [Monitor, hch, hop]
      rw [hM] at h
      replace h : some e0 = r := by simpa using h
      subst h
      rw [hM]
      simp [firstError, eventErr]
    | none =>
      cases hw : env.writeRes with
      | some e0 =>
        have hM : Monitor env config fuel =
            (some (some e0),
              [Event.checkCall none, Event.openCall none,
                Event.writeCall (controlLine config) (some e0),
                Event.closeCall]) := by
          simp [Monitor, hch, hop, hw]
        rw [hM] at h
        replace h : some e0 = r := by simpa using h
        subst h
        rw [hM]
        simp [firstError, eventErr]
      | none =>
        cases hr : (monitorLoop env.pollRes env.cbRes fuel 0).1 with
        | none => simp [Monitor, hch, hop, hw, hr] at h
        | some res =>
          have hM : Monitor env config fuel =
              (some res,
                Event.checkCall none :: Event.openCall none
                  :: Event.writeCall (controlLine config) none
                  :: ((monitorLoop env.pollRes env.cbRes fuel 0).2
                    ++ [Event.closeCall])) := by
            simp [Monitor, hch, hop, hw, hr]
          rw [hM] at h
          replace h : res = r := by simpa using h
          subst h
          rw [hM]
          constructor
          · have hs := monitorLoop_stop_iff env.pollRes env.cbRes fuel 0
            rw [hr] at hs
            simp only [Option.some.injEq] at hs
            simpa [firstError, eventErr] using hs
          · intro e he
            have hL : (monitorLoop env.pollRes env.cbRes fuel 0).1 =
                some (some e) := by rw [hr, he]
            have hf := monitorLoop_error_first env.pollRes env.cbRes fuel 0 e hL
            simpa [firstError, eventErr, firstError_append_close] using hf

/-- Witness for C1: a callback returning the stop sentinel on its first
invocation makes Monitor return nil, with the sentinel dispatch in the
trace. -/
theorem monitor_success_iff_stop_witness :
    Event.cbCall (some Err.stopMonitoring) ∈
      (Monitor ⟨none, none, fun _ => none, fun _ => some Err.stopMonitoring⟩
        ⟨ResourceCPU, StallTypeSome, millisecond * 100, second⟩ 1).2 :=
  ((monitor_success_iff_stop
      ⟨none, none, fun _ => none, fun _ => some Err.stopMonitoring⟩
      ⟨ResourceCPU, StallTypeSome, millisecond * 100, second⟩ 1 none
      (by decide)).1).mp rfl

/-- C5: every control line written by Monitor is the single payload
`<stall-type> <stall-window-microseconds> <window-microseconds>` followed
by one NUL byte, durations truncated to integer microseconds; for the
claim's Config the payload is exactly the bytes `some 100000 1000000\x00`. -/
theorem monitor_write_payload :
    (∀ (env : Env) (config : Config) (fuel : Nat) (s : String) (e : Option Err),
      Event.writeCall s e ∈ (Monitor env config fuel).2 →
        s = config.«Type» ++ " "
          ++ toString (Duration.Microseconds config.StallWindowDuration) ++ " "
          ++ toString (Duration.Microseconds config.WindowDuration) ++ "\x00") ∧
    controlLine ⟨ResourceCPU, StallTypeSome, millisecond * 100, second⟩ =
      "some 100000 1000000\x00" := by
  constructor
  · intro env config fuel s e hmem
    have hcl : s = controlLine config := by
      cases hch : config.Check with
      | some e0 => simp [Monitor, hch] at hmem
      | none =>
        cases hop : env.openRes with
        | some e0 => simp [Monitor, hch, hop] at hmem
        | none =>
          cases hw : env.writeRes with
          | some e0 =>
            simp [Monitor, hch, hop, hw] at hmem
            exact hmem.1
          | none =>
            cases hr : (monitorLoop env.pollRes env.cbRes fuel 0).1 with
            | none =>
              simp [Monitor, hch, hop, hw, hr,
                monitorLoop_no_write env.pollRes env.cbRes fuel 0] at hmem
              exact hmem.1
            | some res =>
              simp [Monitor, hch, hop, hw, hr,
                monitorLoop_no_write env.pollRes env.cbRes fuel 0] at hmem
              exact hmem.1
    exact hcl.trans rfl
  · decide

/-- Witness for C5: the write event of a session whose write fails carries
the formatted payload. -/
theorem monitor_write_payload_witness :
    controlLine ⟨ResourceCPU, StallTypeSome, millisecond * 100, second⟩ =
      (⟨ResourceCPU, StallTypeSome, millisecond * 100, second⟩ : Config).«Type» ++ " "
        ++ toString (Duration.Microseconds
            (⟨ResourceCPU, StallTypeSome, millisecond * 100, second⟩ : Config).StallWindowDuration) ++ " "
        ++ toString (Duration.Microseconds
            (⟨ResourceCPU, StallTypeSome, millisecond * 100, second⟩ : Config).WindowDuration) ++ "\x00" :=
  monitor_write_payload.1
    ⟨none, some (Err.sysErr 0), fun _ => none, fun _ => none⟩
    ⟨ResourceCPU, StallTypeSome, millisecond * 100, second⟩ 1
    (controlLine ⟨ResourceCPU, StallTypeSome, millisecond * 100, second⟩)
    (some (Err.sysErr 0)) (by decide)

/-- C6: with a valid config, successful open and write, and a callback
returning the stop sentinel on its first invocation, Monitor terminates
with nil after exactly one callback dispatch. -/
theorem monitor_stop_first_dispatch (env : Env) (config : Config) (fuel : Nat)
    (hch : config.Check = none) (hop : env.openRes = none)
    (hw : env.writeRes = none) (hp : env.pollRes 0 = none)
    (hc : env.cbRes 0 = some Err.stopMonitoring) (hf : 0 < fuel) :
    (Monitor env config fuel).1 = some none ∧
      cbCalls (Monitor env config fuel).2 = 1 := by
  obtain ⟨n, rfl⟩ : ∃ n, fuel = n + 1 := ⟨fuel - 1, by omega⟩
  have hL : monitorLoop env.pollRes env.cbRes (n + 1) 0 =
      (some none, [Event.pollCall none,
        Event.cbCall (some Err.stopMonitoring)]) := by
    simp [monitorLoop, hp, hc]
  simp [Monitor, hch, hop, hw, hL, cbCalls]

/-- Witness for C6: a concrete session stopping on the first dispatch. -/
theorem monitor_stop_first_dispatch_witness :
    (Monitor ⟨none, none, fun _ => none, fun _ => some Err.stopMonitoring⟩
        ⟨ResourceCPU, StallTypeSome, millisecond * 100, second⟩ 1).1 = some none ∧
      cbCalls (Monitor ⟨none, none, fun _ => none, fun _ => some Err.stopMonitoring⟩
        ⟨ResourceCPU, StallTypeSome, millisecond * 100, second⟩ 1).2 = 1 :=
  monitor_stop_first_dispatch
    ⟨none, none, fun _ => none, fun _ => some Err.stopMonitoring⟩
    ⟨ResourceCPU, StallTypeSome, millisecond * 100, second⟩ 1
    (by decide) rfl rfl rfl rfl (by decide)

/-- C7: a callback returning any error other than the stop sentinel, on
any invocation, makes Monitor return that exact error value. -/
theorem monitor_cb_error_verbatim (env : Env) (config : Config) (fuel : Nat)
    (e : Err) (he : e ≠ Err.stopMonitoring)
    (hmem : Event.cbCall (some e) ∈ (Monitor env config fuel).2) :
    (Monitor env config fuel).1 = some (some e) := by
  cases hch : config.Check with
  | some e0 => simp [Monitor, hch] at hmem
  | none =>
    cases hop : env.openRes with
    | some e0 => simp [Monitor, hch, hop] at hmem
    | none =>
      cases hw : env.writeRes with
      | some e0 => simp [Monitor, hch, hop, hw] at hmem
      | none =>
        cases hr : (monitorLoop env.pollRes env.cbRes fuel 0).1 with
        | none =>
          simp [Monitor, hch, hop, hw, hr] at hmem ⊢
          have hL := monitorLoop_cb_error env.pollRes env.cbRes fuel 0 e he hmem
          rw [hr] at hL
          exact absurd hL (by simp)
        | some res =>
          simp [Monitor, hch, hop, hw, hr] at hmem ⊢
          have hL := monitorLoop_cb_error env.pollRes env.cbRes fuel 0 e he hmem
          rw [hr] at hL
          simpa using hL

/-- Witness for C7: a callback failing with a distinct system error on the
first invocation makes Monitor return exactly that error. -/
theorem monitor_cb_error_verbatim_witness :
    (Monitor ⟨none, none, fun _ => none, fun _ => some (Err.sysErr 7)⟩
        ⟨ResourceCPU, StallTypeSome, millisecond * 100, second⟩ 1).1 =
      some (some (Err.sysErr 7)) :=
  monitor_cb_error_verbatim
    ⟨none, none, fun _ => none, fun _ => some (Err.sysErr 7)⟩
    ⟨ResourceCPU, StallTypeSome, millisecond * 100, second⟩ 1
    (Err.sysErr 7) (by decide) (by decide)

/-- C8: on every Monitor exit following a successful open — clean stop,
write error, poll error or callback error — the handle is closed exactly
once, and it is never closed when the open did not succeed. -/
theorem monitor_close_exactly_once (env : Env) (config : Config) (fuel : Nat)
    (r : Option Err) (h : (Monitor env config fuel).1 = some r) :
    (Event.openCall none ∈ (Monitor env config fuel).2 →
      closeCalls (Monitor env config fuel).2 = 1) ∧
    (Event.openCall none ∉ (Monitor env config fuel).2 →
      closeCalls (Monitor env config fuel).2 = 0) := by
  cases hch : config.Check with
  | some e0 => simp [Monitor, hch, closeCalls]
  | none =>
    cases hop : env.openRes with
    | some e0 => simp [Monitor, hch, hop, closeCalls]
    | none =>
      cases hw : env.writeRes with
      | some e0 => simp [Monitor, hch, hop, hw, closeCalls]
      | none =>
        cases hr : (monitorLoop env.pollRes env.cbRes fuel 0).1 with
        | none => simp [Monitor, hch, hop, hw, hr] at h
        | some res =>
          simp [Monitor, hch, hop, hw, hr, closeCalls, closeCalls_append,
            monitorLoop_no_close]

/-- Witness for C8: a session stopping cleanly closes the handle exactly
once. -/
theorem monitor_close_exactly_once_witness :
    closeCalls
      (Monitor ⟨none, none, fun _ => none, fun _ => some Err.stopMonitoring⟩
        ⟨ResourceCPU, StallTypeSome, millisecond * 100, second⟩ 1).2 = 1 :=
  (monitor_close_exactly_once
      ⟨none, none, fun _ => none, fun _ => some Err.stopMonitoring⟩
      ⟨ResourceCPU, StallTypeSome, millisecond * 100, second⟩ 1 none
      (by decide)).1 (by decide)

/-- Witness for C10: two Configs differing only in Resource and Type get
the same Check result. -/
theorem check_ignores_tags_witness :
    (⟨ResourceCPU, StallTypeSome, millisecond * 100, second⟩ : Config).Check =
      (⟨"not-a-resource", "", millisecond * 100, second⟩ : Config).Check :=
  check_ignores_tags ⟨ResourceCPU, StallTypeSome, millisecond * 100, second⟩
    ⟨"not-a-resource", "", millisecond * 100, second⟩ rfl rfl

end Psi
